import Mathlib

/-!
Verification of the menu selection optimizer in Menu_Optimization.py.

The optimizer, optimize_menu, filters a dataframe of menu rows to one
restaurant, builds a 0/1 integer program (one binary variable per distinct
MenuItem key), maximizes the total SellingPrice subject to a budget cap on
Price and a minimum item count for every distinct MenuCategory label, solves
it with pulp and the exact CBC branch and bound solver, and reads back the
variables whose solved value equals 1.

Embedding choices:
- a dataframe is a list of rows; monetary amounts are exact integers (the
  budget in the application is an integer slider value and the spec fixtures
  use integer prices); solved variable values are rationals, since the
  solver hands back numeric values on which the code performs an equality
  comparison against 1;
- a missing (NaN) MenuCategory label is the value none, and the pandas
  comparison semantics where NaN is unequal to every value, itself included,
  is the function pandasEq;
- the CBC solve of the finite 0/1 model is modelled as exact optimization:
  among all subsets of the variable keys, a feasible subset of maximal
  objective, and none when no subset is feasible (CBC is an exact solver on
  such models, and the spec requires an exact solve);
- on an infeasible model pulp leaves every variable value at None, so the
  equality test against 1 fails for every row and a nonempty objective
  expression evaluates to None, while the empty objective expression is the
  constant 0.
-/

/-- A row of the preprocessed dataframe handed to optimize_menu: the columns
RestaurantID, MenuItem, MenuCategory, Price, Profitability, SellingPrice.
A missing (NaN) category label is none. -/
structure Row where
  RestaurantID : String
  MenuItem : String
  MenuCategory : Option String
  Price : ℤ
  Profitability : String
  SellingPrice : ℤ
  deriving DecidableEq

/-- Pandas equality on category labels: a missing label (NaN) compares
unequal to everything, itself included; present labels compare as strings. -/
def pandasEq : Option String → Option String → Bool
  | some a, some b => a == b
  | _, _ => false

/-- Line 25: df[df.RestaurantID == restaurant_id]. -/
def filterRestaurant (df : List Row) (restaurant_id : String) : List Row :=
  df.filter (fun r => r.RestaurantID == restaurant_id)

/-- Lines 32 to 34: the key set of the pulp variable dictionary, one binary
variable per distinct MenuItem value of the filtered rows. -/
def uniqueKeys (rows : List Row) : List String :=
  (rows.map (fun r => r.MenuItem)).dedup

/-- Line 45: restaurant_df.MenuCategory.unique(), the distinct category
labels of the filtered rows, a missing label appearing once as none. -/
def uniqueCats (rows : List Row) : List (Option String) :=
  (rows.map (fun r => r.MenuCategory)).dedup

/-- The 0/1 value a candidate solution (the set S of chosen keys) assigns to
the binary variable of key k. -/
def varVal (S : List String) (k : String) : ℤ :=
  if k ∈ S then 1 else 0

/-- Lines 41 to 42, left hand side of the budget constraint: the sum over
the filtered rows of variable value times Price. -/
def budgetSpent (rows : List Row) (S : List String) : ℤ :=
  (rows.map (fun r => varVal S r.MenuItem * r.Price)).sum

/-- Lines 37 to 38, the objective expression: the sum over the filtered rows
of variable value times SellingPrice. -/
def objectiveVal (rows : List Row) (S : List String) : ℤ :=
  (rows.map (fun r => varVal S r.MenuItem * r.SellingPrice)).sum

/-- Lines 46 to 48, left hand side of the category constraint for label c:
the sum of the variable values of the rows whose MenuCategory equals c under
the pandas comparison. -/
def catSum (rows : List Row) (S : List String) (c : Option String) : ℤ :=
  (rows.map (fun r => if pandasEq r.MenuCategory c then varVal S r.MenuItem else 0)).sum

/-- The constraint system of the model built on lines 28 to 48: the budget
cap and, for every distinct category label, the minimum count m
(min_items_per_category in the code). -/
def feasibleSel (rows : List Row) (max_budget : ℤ) (m : ℕ) (S : List String) : Bool :=
  decide (budgetSpent rows S ≤ max_budget) &&
    (uniqueCats rows).all (fun c => decide ((m : ℤ) ≤ catSum rows S c))

/-- Line 51, prob.solve(): the exact CBC solve of the finite 0/1 model,
modelled as exact optimization over all subsets of the variable keys: a
feasible subset of maximal objective, or none when no subset is feasible. -/
def solveMenu (rows : List Row) (max_budget : ℤ) (m : ℕ) : Option (List String) :=
  ((uniqueKeys rows).sublists.filter (feasibleSel rows max_budget m)).argmax (objectiveVal rows)

/-- Line 56, pulp.value(menu_vars[k]) after the solve: the numeric solved
value of the variable of key k, None when the model was infeasible. -/
def solvedVarValue (sol : Option (List String)) (k : String) : Option ℚ :=
  sol.map (fun S => (varVal S k : ℚ))

/-- Line 56, the emission test of the extraction loop: the solved value
compared for equality with 1 (Python ==, where None == 1 is false). -/
def isSelectedValue (v : Option ℚ) : Bool :=
  decide (v = some 1)

/-- Lines 54 to 63: the extraction loop, keeping in row order every filtered
row whose variable has solved value equal to 1. -/
def extractSelected (rows : List Row) (sol : Option (List String)) : List Row :=
  rows.filter (fun r => isSelectedValue (solvedVarValue sol r.MenuItem))

/-- Line 65, pulp.value(prob.objective): the objective value at the solved
point; on an infeasible model every variable value is None, so a nonempty
objective expression evaluates to None, while the empty objective expression
(no filtered rows) is the constant 0. -/
def objectiveValue (rows : List Row) (sol : Option (List String)) : Option ℤ :=
  match sol with
  | some S => some (objectiveVal rows S)
  | none => if rows.isEmpty then some 0 else none

/-- Lines 20 to 65 of Menu_Optimization.py with the minimum item count per
category (the local constant min_items_per_category of line 22) exposed as
the parameter m: filter, build, solve, extract. -/
def optimize_menuWith (df : List Row) (restaurant_id : String) (max_budget : ℤ) (m : ℕ) :
    List Row × Option ℤ :=
  (extractSelected (filterRestaurant df restaurant_id)
      (solveMenu (filterRestaurant df restaurant_id) max_budget m),
    objectiveValue (filterRestaurant df restaurant_id)
      (solveMenu (filterRestaurant df restaurant_id) max_budget m))

/-- Lines 20 to 65, optimize_menu(df, restaurant_id, max_budget): the code
fixes min_items_per_category to the literal 1 on line 22. -/
def optimize_menu (df : List Row) (restaurant_id : String) (max_budget : ℤ) :
    List Row × Option ℤ :=
  optimize_menuWith df restaurant_id max_budget 1

/-- Stated from the words of the spec, for comparison with isSelectedValue:
treat any solved value of at least one half as selected, and a missing value
as not selected. -/
def specSelectedValue (v : Option ℚ) : Bool :=
  match v with
  | some x => decide ((1 : ℚ) / 2 ≤ x)
  | none => false

/-- The candidate solution S restricted to the variable keys of the model;
it selects the same rows as S and is a sublist of the key list. -/
def restrictKeys (rows : List Row) (S : List String) : List String :=
  (uniqueKeys rows).filter (fun k => decide (k ∈ S))

/-- Fixture: the restaurant identifier used by the concrete instances. -/
def ridR1 : String := "R1"

/-- Fixture: scenario B of the spec, appetizer item. -/
def itemA : Row := ⟨"R1", "A1", some ("Appetizer"), 10, "High", 40⟩

/-- Fixture: scenario B of the spec, entree item. -/
def itemE : Row := ⟨"R1", "E1", some ("Entree"), 20, "Medium", 60⟩

/-- Fixture: scenario B of the spec, two items of distinct categories. -/
def dfB : List Row := [itemA, itemE]

/-- Fixture: an item of a different restaurant. -/
def itemZ : Row := ⟨"R2", "Z1", some ("Dessert"), 5, "Low", 10⟩

/-- Fixture: another item of a different restaurant. -/
def itemW : Row := ⟨"R2", "W1", some ("Drink"), 7, "Low", 14⟩

/-- Fixture: scenario B rows plus one foreign row. -/
def df1C5 : List Row := [itemA, itemZ, itemE]

/-- Fixture: scenario B rows plus a different foreign row; agrees with df1C5
on the rows of restaurant R1. -/
def df2C5 : List Row := [itemA, itemE, itemW]

/-- Fixture: a table holding only a foreign restaurant row, so the filtered
set for R1 is empty. -/
def dfOther : List Row := [itemZ]

/-- Fixture: a single cheap item of restaurant R1. -/
def itemS : Row := ⟨"R1", "S1", some ("Snack"), 5, "Low", 10⟩

/-- Fixture: a one item table for restaurant R1. -/
def dfSingle : List Row := [itemS]

/-- Fixture: an item whose category label is missing (NaN). -/
def itemNan : Row := ⟨"R1", "N1", none, 1, "Low", 2⟩

/-- Fixture: a table whose only R1 item has a missing category label. -/
def dfNan : List Row := [itemNan]

/-- Fixture: an item whose category label is the blank string. -/
def itemBlank : Row := ⟨"R1", "B1", some (""), 1, "Low", 2⟩

/-- Fixture: a table whose only R1 item has a blank category label. -/
def dfBlank : List Row := [itemBlank]

/-- Fixture: first of two items sharing one category. -/
def itemX : Row := ⟨"R1", "X1", some ("Main"), 10, "Low", 7⟩

/-- Fixture: second of two items sharing one category, higher selling price. -/
def itemY : Row := ⟨"R1", "Y1", some ("Main"), 10, "Low", 9⟩

/-- Fixture: two items of one category, only one affordable at budget 10. -/
def dfC10 : List Row := [itemX, itemY]

/-- Fixture: the blank string label. -/
def emptyLabel : String := ""

/-- The emission test of line 56 applied to a solved model: a row is kept
exactly when its key was chosen by the solver. -/
theorem isSelectedValue_solvedVar (S : List String) (k : String) :
    isSelectedValue (solvedVarValue (some S) k) = decide (k ∈ S) := by
  by_cases h : k ∈ S <;> simp [isSelectedValue, solvedVarValue, varVal, h]

/-- Extraction on a solved model keeps exactly the rows whose key is in the
chosen subset. -/
theorem extractSelected_some (rows : List Row) (S : List String) :
    extractSelected rows (some S) = rows.filter (fun r => decide (r.MenuItem ∈ S)) := by
  unfold extractSelected
  exact List.filter_congr (fun r _ => isSelectedValue_solvedVar S r.MenuItem)

/-- Extraction on an infeasible model keeps nothing: every solved value is
None and None is unequal to 1. -/
theorem extractSelected_none (rows : List Row) :
    extractSelected rows none = [] := by
  simp [extractSelected, isSelectedValue, solvedVarValue]

/-- A sum of variable value times coefficient equals the coefficient sum over
the rows whose key is chosen. -/
theorem varVal_mul_sum (rows : List Row) (S : List String) (f : Row → ℤ) :
    (rows.map (fun r => varVal S r.MenuItem * f r)).sum =
      ((rows.filter (fun r => decide (r.MenuItem ∈ S))).map f).sum := by
  induction rows with
  | nil => rfl
  | cons r t ih =>
    have hv : varVal S r.MenuItem * f r = if r.MenuItem ∈ S then f r else 0 := by
      unfold varVal; split <;> ring
    rw [List.map_cons, List.sum_cons, hv, ih, List.filter_cons]
    by_cases h : r.MenuItem ∈ S
    · simp [h]
    · simp [h]

/-- The objective expression evaluates to the selling price total of the
selected rows. -/
theorem objectiveVal_eq_selected_sum (rows : List Row) (S : List String) :
    objectiveVal rows S =
      ((rows.filter (fun r => decide (r.MenuItem ∈ S))).map (fun r => r.SellingPrice)).sum :=
  varVal_mul_sum rows S _

/-- The budget expression evaluates to the price total of the selected rows. -/
theorem budgetSpent_eq_selected_sum (rows : List Row) (S : List String) :
    budgetSpent rows S =
      ((rows.filter (fun r => decide (r.MenuItem ∈ S))).map (fun r => r.Price)).sum :=
  varVal_mul_sum rows S _

/-- Pandas comparison against a missing label is false for every label. -/
theorem pandasEq_none_right (x : Option String) : pandasEq x none = false := by
  cases x <;> rfl

/-- Pandas comparison against a present label agrees with plain equality. -/
theorem pandasEq_some_right (x : Option String) (s : String) :
    pandasEq x (some s) = (x == some s) := by
  cases x <;> rfl

/-- The category expression for a missing label is identically zero: no row
compares equal to NaN, its own label included. -/
theorem catSum_none (rows : List Row) (S : List String) : catSum rows S none = 0 := by
  induction rows with
  | nil => rfl
  | cons r t ih =>
    unfold catSum at ih ⊢
    rw [List.map_cons, List.sum_cons, ih, pandasEq_none_right]
    simp

/-- The category expression counts the selected rows bearing the label under
the pandas comparison. -/
theorem catSum_eq_count (rows : List Row) (S : List String) (c : Option String) :
    catSum rows S c =
      ((rows.filter (fun r => decide (r.MenuItem ∈ S) && pandasEq r.MenuCategory c)).length : ℤ) := by
  induction rows with
  | nil => rfl
  | cons r t ih =>
    unfold catSum at ih ⊢
    rw [List.map_cons, List.sum_cons, ih, List.filter_cons]
    by_cases hc : pandasEq r.MenuCategory c
    · by_cases h : r.MenuItem ∈ S
      · rw [if_pos hc]
        have hk : (decide (r.MenuItem ∈ S) && pandasEq r.MenuCategory c) = true := by
          simp [h, hc]
        rw [if_pos hk, List.length_cons]
        unfold varVal
        rw [if_pos h]
        push_cast
        ring
      · simp [varVal, hc, h]
    · simp [hc, Bool.and_false]

/-- Unfolding of the constraint system into its two conjuncts. -/
theorem feasibleSel_iff (rows : List Row) (b : ℤ) (m : ℕ) (S : List String) :
    feasibleSel rows b m S = true ↔
      budgetSpent rows S ≤ b ∧ ∀ c ∈ uniqueCats rows, (m : ℤ) ≤ catSum rows S c := by
  simp [feasibleSel, List.all_eq_true]

/-- A subset returned by the solve satisfies the constraint system. -/
theorem solveMenu_feasible {rows : List Row} {b : ℤ} {m : ℕ} {S : List String}
    (h : solveMenu rows b m = some S) : feasibleSel rows b m S = true := by
  unfold solveMenu at h
  have hmem : S ∈ (uniqueKeys rows).sublists.filter (feasibleSel rows b m) :=
    List.argmax_mem h
  exact (List.mem_filter.mp hmem).2

/-- A subset returned by the solve has at least the objective of every
feasible sublist of the key list. -/
theorem solveMenu_optimal {rows : List Row} {b : ℤ} {m : ℕ} {S : List String}
    (h : solveMenu rows b m = some S) {S2 : List String}
    (h2 : S2 ∈ (uniqueKeys rows).sublists) (hf : feasibleSel rows b m S2 = true) :
    objectiveVal rows S2 ≤ objectiveVal rows S := by
  unfold solveMenu at h
  exact List.le_of_mem_argmax (List.mem_filter.mpr ⟨h2, hf⟩) h

/-- The restriction of a candidate subset to the key list is a sublist of
the key list. -/
theorem restrictKeys_mem_sublists (rows : List Row) (S : List String) :
    restrictKeys rows S ∈ (uniqueKeys rows).sublists :=
  List.mem_sublists.mpr (List.filter_sublist _)

/-- Every filtered row has its key in the key list of the model. -/
theorem key_mem_uniqueKeys {rows : List Row} {r : Row} (hr : r ∈ rows) :
    r.MenuItem ∈ uniqueKeys rows := by
  unfold uniqueKeys
  rw [List.mem_dedup]
  exact List.mem_map.mpr ⟨r, hr, rfl⟩

/-- Restricting a candidate subset to the key list does not change the value
it assigns to the variable of any filtered row. -/
theorem varVal_restrict (rows : List Row) (S : List String) {r : Row} (hr : r ∈ rows) :
    varVal (restrictKeys rows S) r.MenuItem = varVal S r.MenuItem := by
  have hk := key_mem_uniqueKeys hr
  by_cases h : r.MenuItem ∈ S
  · simp [varVal, restrictKeys, List.mem_filter, hk, h]
  · simp [varVal, restrictKeys, List.mem_filter, h]

/-- Restriction preserves the budget expression. -/
theorem budgetSpent_restrict (rows : List Row) (S : List String) :
    budgetSpent rows (restrictKeys rows S) = budgetSpent rows S := by
  unfold budgetSpent
  exact congrArg List.sum
    (List.map_congr_left (fun r hr => by rw [varVal_restrict rows S hr]))

/-- Restriction preserves the objective expression. -/
theorem objectiveVal_restrict (rows : List Row) (S : List String) :
    objectiveVal rows (restrictKeys rows S) = objectiveVal rows S := by
  unfold objectiveVal
  exact congrArg List.sum
    (List.map_congr_left (fun r hr => by rw [varVal_restrict rows S hr]))

/-- Restriction preserves every category expression. -/
theorem catSum_restrict (rows : List Row) (S : List String) (c : Option String) :
    catSum rows (restrictKeys rows S) c = catSum rows S c := by
  unfold catSum
  exact congrArg List.sum
    (List.map_congr_left (fun r hr => by rw [varVal_restrict rows S hr]))

/-- Restriction preserves feasibility. -/
theorem feasibleSel_restrict (rows : List Row) (b : ℤ) (m : ℕ) (S : List String) :
    feasibleSel rows b m (restrictKeys rows S) = feasibleSel rows b m S := by
  have h1 := feasibleSel_iff rows b m (restrictKeys rows S)
  have h2 := feasibleSel_iff rows b m S
  have hiff : feasibleSel rows b m (restrictKeys rows S) = true ↔
      feasibleSel rows b m S = true := by
    rw [h1, h2, budgetSpent_restrict]
    constructor
    · rintro ⟨hb, hc⟩
      exact ⟨hb, fun c hcm => by rw [← catSum_restrict rows S c]; exact hc c hcm⟩
    · rintro ⟨hb, hc⟩
      exact ⟨hb, fun c hcm => by rw [catSum_restrict rows S c]; exact hc c hcm⟩
  cases hA : feasibleSel rows b m (restrictKeys rows S) <;>
    cases hB : feasibleSel rows b m S <;> simp_all

/-- A subset returned by the solve has at least the objective of every
feasible candidate subset, sublist of the key list or not. -/
theorem solveMenu_le_of_feasible {rows : List Row} {b : ℤ} {m : ℕ} {S : List String}
    (h : solveMenu rows b m = some S) (S2 : List String)
    (hf : feasibleSel rows b m S2 = true) :
    objectiveVal rows S2 ≤ objectiveVal rows S := by
  have h1 : feasibleSel rows b m (restrictKeys rows S2) = true := by
    rw [feasibleSel_restrict]; exact hf
  have h2 := solveMenu_optimal h (restrictKeys_mem_sublists rows S2) h1
  rwa [objectiveVal_restrict] at h2

/-- Inversion of a run of the optimizer that produced a nonempty selection:
the solve succeeded, the selection is the filter of the rows by the chosen
subset, and the reported objective is the objective expression there. -/
theorem optimize_feasible_inv {df : List Row} {rid : String} {b : ℤ} {m : ℕ}
    {sel : List Row} {q : ℤ}
    (h : optimize_menuWith df rid b m = (sel, some q)) (hne : sel ≠ []) :
    ∃ S, solveMenu (filterRestaurant df rid) b m = some S ∧
      sel = (filterRestaurant df rid).filter (fun r => decide (r.MenuItem ∈ S)) ∧
      q = objectiveVal (filterRestaurant df rid) S := by
  unfold optimize_menuWith at h
  cases hs : solveMenu (filterRestaurant df rid) b m with
  | none =>
    rw [hs] at h
    have hfst : sel = extractSelected (filterRestaurant df rid) none :=
      (congrArg Prod.fst h).symm
    rw [extractSelected_none] at hfst
    exact absurd hfst hne
  | some S =>
    rw [hs] at h
    have hfst : extractSelected (filterRestaurant df rid) (some S) = sel :=
      congrArg Prod.fst h
    have hsnd : objectiveValue (filterRestaurant df rid) (some S) = some q :=
      congrArg Prod.snd h
    refine ⟨S, rfl, ?_, ?_⟩
    · rw [← hfst, extractSelected_some]
    · have hq : some (objectiveVal (filterRestaurant df rid) S) = some q := hsnd
      exact (Option.some.injEq _ _ ▸ hq).symm

/-- A nonempty selection spends at most the budget. -/
theorem selected_budget {df : List Row} {rid : String} {b : ℤ} {m : ℕ}
    {sel : List Row} {q : ℤ}
    (h : optimize_menuWith df rid b m = (sel, some q)) (hne : sel ≠ []) :
    (sel.map (fun r => r.Price)).sum ≤ b := by
  obtain ⟨S, hs, hsel, _⟩ := optimize_feasible_inv h hne
  have hfeas := (feasibleSel_iff _ _ _ _).mp (solveMenu_feasible hs)
  rw [hsel, ← budgetSpent_eq_selected_sum]
  exact hfeas.1

/-- The reported objective of a nonempty selection is the selling price total
of the selected rows. -/
theorem selected_objective {df : List Row} {rid : String} {b : ℤ} {m : ℕ}
    {sel : List Row} {q : ℤ}
    (h : optimize_menuWith df rid b m = (sel, some q)) (hne : sel ≠ []) :
    q = (sel.map (fun r => r.SellingPrice)).sum := by
  obtain ⟨S, hs, hsel, hq⟩ := optimize_feasible_inv h hne
  rw [hq, hsel, ← objectiveVal_eq_selected_sum]

/-- A nonempty selection covers every discovered category label at least m
times, counting by plain label equality. -/
theorem selected_cat_count {df : List Row} {rid : String} {b : ℤ} {m : ℕ}
    {sel : List Row} {q : ℤ}
    (h : optimize_menuWith df rid b m = (sel, some q)) (hne : sel ≠ [])
    {c : Option String} (hc : c ∈ uniqueCats (filterRestaurant df rid)) :
    m ≤ (sel.filter (fun r => r.MenuCategory == c)).length := by
  obtain ⟨S, hs, hsel, _⟩ := optimize_feasible_inv h hne
  have hfeas := (feasibleSel_iff _ _ _ _).mp (solveMenu_feasible hs)
  have hcat := hfeas.2 c hc
  cases c with
  | none =>
    rw [catSum_none] at hcat
    have hm0 : m = 0 := by exact_mod_cast le_antisymm (by exact_mod_cast hcat) (Nat.zero_le m)
    simp [hm0]
  | some s =>
    rw [catSum_eq_count] at hcat
    have hm : m ≤ ((filterRestaurant df rid).filter
        (fun r => decide (r.MenuItem ∈ S) && pandasEq r.MenuCategory (some s))).length := by
      exact_mod_cast hcat
    rw [hsel, List.filter_filter]
    have hcong : ((filterRestaurant df rid).filter
          (fun r => decide (r.MenuItem ∈ S) && pandasEq r.MenuCategory (some s))) =
        ((filterRestaurant df rid).filter
          (fun r => (r.MenuCategory == some s) && decide (r.MenuItem ∈ S))) :=
      List.filter_congr (fun r _ => by rw [pandasEq_some_right, Bool.and_comm])
    rw [hcong] at hm
    exact hm

/-- C1: whenever optimize_menu returns a nonempty selection together with an
objective value, no candidate subset of the filtered items that satisfies the
budget cap and every category minimum has a selling price total exceeding the
returned objective value: the solve is exactly optimal. -/
theorem C1_optimal (df : List Row) (rid : String) (b : ℤ) (sel : List Row) (q : ℤ)
    (h : optimize_menu df rid b = (sel, some q)) (hne : sel ≠ [])
    (S2 : List String) (hf : feasibleSel (filterRestaurant df rid) b 1 S2 = true) :
    objectiveVal (filterRestaurant df rid) S2 ≤ q := by
  obtain ⟨S, hs, _, hq⟩ := optimize_feasible_inv h hne
  rw [hq]
  exact solveMenu_le_of_feasible hs S2 hf

/-- C2: whenever optimize_menu returns a nonempty selection together with an
objective value, the Price total of the selected items does not exceed the
supplied budget. -/
theorem C2_budget (df : List Row) (rid : String) (b : ℤ) (sel : List Row) (q : ℤ)
    (h : optimize_menu df rid b = (sel, some q)) (hne : sel ≠ []) :
    (sel.map (fun r => r.Price)).sum ≤ b :=
  selected_budget h hne

/-- C3: whenever the optimizer (with minimum count m per category, the
parameter embedding min_items_per_category) returns a nonempty selection
together with an objective value, every category label discovered among the
filtered items is carried by at least m selected items. -/
theorem C3_category_min (df : List Row) (rid : String) (b : ℤ) (m : ℕ)
    (sel : List Row) (q : ℤ)
    (h : optimize_menuWith df rid b m = (sel, some q)) (hne : sel ≠ [])
    (c : Option String) (hc : c ∈ uniqueCats (filterRestaurant df rid)) :
    m ≤ (sel.filter (fun r => r.MenuCategory == c)).length :=
  selected_cat_count h hne hc

/-- C4: whenever optimize_menu returns a nonempty selection together with an
objective value, the returned objective value equals the recomputed
SellingPrice total of the selected items, exactly. -/
theorem C4_objective (df : List Row) (rid : String) (b : ℤ) (sel : List Row) (q : ℤ)
    (h : optimize_menu df rid b = (sel, some q)) (hne : sel ≠ []) :
    q = (sel.map (fun r => r.SellingPrice)).sum :=
  selected_objective h hne

/-- C5: two item tables that agree on the rows of the requested restaurant
produce identical results, and every selected item belongs to the requested
restaurant: foreign rows never appear in the selection and never influence
the objective or the constraints. -/
theorem C5_isolation (df1 df2 : List Row) (rid : String) (b : ℤ)
    (h : filterRestaurant df1 rid = filterRestaurant df2 rid) :
    optimize_menu df1 rid b = optimize_menu df2 rid b ∧
    ∀ r ∈ (optimize_menu df1 rid b).1, r.RestaurantID = rid := by
  constructor
  · unfold optimize_menu optimize_menuWith
    rw [h]
  · intro r hr
    have hr2 : r ∈ filterRestaurant df1 rid := by
      simp only [optimize_menu, optimize_menuWith, extractSelected] at hr
      exact List.mem_of_mem_filter hr
    have hbeq := (List.mem_filter.mp hr2).2
    exact eq_of_beq (by simpa using hbeq)

/-- Witness for C1 at scenario B: the feasible candidate selecting both keys
achieves at most the returned objective 100. -/
theorem C1_optimal_witness :
    feasibleSel (filterRestaurant dfB ridR1) 35 1 [itemE.MenuItem, itemA.MenuItem] = true ∧
    objectiveVal (filterRestaurant dfB ridR1) [itemE.MenuItem, itemA.MenuItem] ≤ 100 :=
  ⟨by decide,
    C1_optimal dfB ridR1 35 [itemA, itemE] 100 (by decide) (by decide)
      [itemE.MenuItem, itemA.MenuItem] (by decide)⟩

/-- Witness for C2 at scenario B: the selected items cost 30, within the
budget 35. -/
theorem C2_budget_witness :
    optimize_menu dfB ridR1 35 = ([itemA, itemE], some 100) ∧
    ([itemA, itemE].map (fun r => r.Price)).sum ≤ (35 : ℤ) :=
  ⟨by decide, C2_budget dfB ridR1 35 [itemA, itemE] 100 (by decide) (by decide)⟩

/-- Witness for C3 at scenario B with minimum 1: the appetizer category is
covered by at least one selected item. -/
theorem C3_category_min_witness :
    itemA.MenuCategory ∈ uniqueCats (filterRestaurant dfB ridR1) ∧
    1 ≤ ([itemA, itemE].filter (fun r => r.MenuCategory == itemA.MenuCategory)).length :=
  ⟨by decide,
    C3_category_min dfB ridR1 35 1 [itemA, itemE] 100 (by decide) (by decide)
      itemA.MenuCategory (by decide)⟩

/-- Witness for C4 at scenario B: the reported objective 100 equals the
recomputed selling price total of the selected items. -/
theorem C4_objective_witness :
    (100 : ℤ) = ([itemA, itemE].map (fun r => r.SellingPrice)).sum :=
  C4_objective dfB ridR1 35 [itemA, itemE] 100 (by decide) (by decide)

/-- Witness for C5: two tables differing only in foreign restaurant rows
give identical results, and every selected row belongs to R1. -/
theorem C5_isolation_witness :
    filterRestaurant df1C5 ridR1 = filterRestaurant df2C5 ridR1 ∧
    optimize_menu df1C5 ridR1 35 = optimize_menu df2C5 ridR1 35 ∧
    ∀ r ∈ (optimize_menu df1C5 ridR1 35).1, r.RestaurantID = ridR1 :=
  ⟨by decide,
    (C5_isolation df1C5 df2C5 ridR1 35 (by decide)).1,
    (C5_isolation df1C5 df2C5 ridR1 35 (by decide)).2⟩

/-- C6 counterexample: with no item of the requested restaurant, the code
does not return an infeasible, objective free result; the trivial model is
still solved and the returned pair carries the objective value 0. -/
theorem C6_counterexample :
    filterRestaurant dfOther ridR1 = [] ∧
    optimize_menu dfOther ridR1 10 = ([], some 0) :=
  ⟨by decide, by decide⟩

/-- C6 amended: when the filtered item set is empty the model is still built
and solved; the result is the empty selection paired with the objective
value 0 (the empty objective expression evaluates to 0 whatever the solver
status), not an objective free infeasible result. -/
theorem C6_empty_filter (df : List Row) (rid : String) (b : ℤ)
    (hf : filterRestaurant df rid = []) :
    optimize_menu df rid b = ([], some 0) := by
  unfold optimize_menu optimize_menuWith
  rw [hf]
  cases hs : solveMenu [] b 1 with
  | none => simp [extractSelected_none, objectiveValue]
  | some S => simp [extractSelected, objectiveValue, objectiveVal]

/-- Witness for the amended C6 at a table whose only row is foreign. -/
theorem C6_empty_filter_witness :
    filterRestaurant dfOther ridR1 = [] ∧
    optimize_menu dfOther ridR1 12 = ([], some 0) :=
  ⟨by decide, C6_empty_filter dfOther ridR1 12 (by decide)⟩

/-- C7 counterexample: a negative budget is not rejected at the boundary of
optimize_menu with a descriptive error; the model is built anyway, handed to
the solve, and the call returns the ordinary infeasible shaped result. -/
theorem C7_counterexample :
    optimize_menu dfSingle ridR1 (-1) = ([], none) := by decide

/-- With nonnegative prices, the budget expression is nonnegative at every
candidate solution. -/
theorem budgetSpent_nonneg (rows : List Row) (S : List String)
    (hp : ∀ r ∈ rows, 0 ≤ r.Price) : 0 ≤ budgetSpent rows S := by
  unfold budgetSpent
  apply List.sum_nonneg
  intro x hx
  obtain ⟨r, hr, rfl⟩ := List.mem_map.mp hx
  have hpr := hp r hr
  unfold varVal
  split
  · simpa using hpr
  · simp

/-- C7 amended: optimize_menu performs no input validation at all; a negative
budget (with nonnegative prices and a nonempty filtered set) flows through
model construction and the solve and comes back as the ordinary infeasible
result, an empty selection with no objective, not a descriptive error. -/
theorem C7_no_validation (df : List Row) (rid : String) (b : ℤ) (hb : b < 0)
    (hne : filterRestaurant df rid ≠ [])
    (hp : ∀ r ∈ filterRestaurant df rid, 0 ≤ r.Price) :
    optimize_menu df rid b = ([], none) := by
  have hsol : solveMenu (filterRestaurant df rid) b 1 = none := by
    unfold solveMenu
    have hfil : ((uniqueKeys (filterRestaurant df rid)).sublists.filter
        (feasibleSel (filterRestaurant df rid) b 1)) = [] := by
      apply List.filter_eq_nil_iff.mpr
      intro S _ hfe
      have hble := ((feasibleSel_iff _ _ _ _).mp hfe).1
      have h0 := budgetSpent_nonneg (filterRestaurant df rid) S hp
      linarith
    rw [hfil, List.argmax_nil]
  unfold optimize_menu optimize_menuWith
  rw [hsol, extractSelected_none]
  simp [objectiveValue, hne]

/-- Witness for the amended C7 at the one item table and budget minus one. -/
theorem C7_no_validation_witness :
    ((-1 : ℤ) < 0) ∧ filterRestaurant dfSingle ridR1 ≠ [] ∧
    optimize_menu dfSingle ridR1 (-1) = ([], none) :=
  ⟨by decide, by decide,
    C7_no_validation dfSingle ridR1 (-1) (by decide) (by decide) (by decide)⟩

/-- C8 counterexample: at the solved value three fifths, the emission test of
the code (equality with 1) rejects the item while the claimed threshold test
(at least one half) accepts it; the two predicates are different. -/
theorem C8_counterexample :
    isSelectedValue (some ((3 : ℚ) / 5)) = false ∧
    specSelectedValue (some ((3 : ℚ) / 5)) = true := by
  constructor
  · norm_num [isSelectedValue]
  · norm_num [specSelectedValue]

/-- C8 amended: an item is emitted into the selection exactly when its solved
variable value equals 1 precisely, that is, when the solve succeeded and
chose its key; values merely at least one half are not accepted by the code. -/
theorem C8_exact_equality (sol : Option (List String)) (k : String) :
    isSelectedValue (solvedVarValue sol k) = true ↔ ∃ S, sol = some S ∧ k ∈ S := by
  cases sol with
  | none => simp [solvedVarValue, isSelectedValue]
  | some S =>
    rw [isSelectedValue_solvedVar]
    simp

/-- C9 counterexample: the single R1 item has a missing (NaN) category label;
the label does appear among the discovered categories, but the item itself
contributes nothing to the constraint generated for it, so the model is
infeasible and nothing is ever selected, while a blank string label behaves
as an ordinary category and its item is selected. -/
theorem C9_counterexample :
    none ∈ uniqueCats (filterRestaurant dfNan ridR1) ∧
    catSum (filterRestaurant dfNan ridR1) [itemNan.MenuItem] none = 0 ∧
    optimize_menu dfNan ridR1 10 = ([], none) ∧
    optimize_menu dfBlank ridR1 10 = ([itemBlank], some 2) :=
  ⟨by decide, by decide, by decide, by decide⟩

/-- C9 amended: a blank string label is an ordinary category with its own
minimum count constraint, and a missing (NaN) label also generates its own
constraint, but no item can ever satisfy it, because the pandas comparison
makes NaN unequal to every label including itself; hence with a positive
minimum, any missing label item renders the whole model infeasible. -/
theorem C9_missing_label (df : List Row) (rid : String) (b : ℤ) (m : ℕ)
    (hm : 1 ≤ m) (hnan : none ∈ uniqueCats (filterRestaurant df rid)) :
    optimize_menuWith df rid b m = ([], none) := by
  have hne : filterRestaurant df rid ≠ [] := by
    intro h0
    rw [h0] at hnan
    simp [uniqueCats] at hnan
  have hsol : solveMenu (filterRestaurant df rid) b m = none := by
    unfold solveMenu
    have hfil : ((uniqueKeys (filterRestaurant df rid)).sublists.filter
        (feasibleSel (filterRestaurant df rid) b m)) = [] := by
      apply List.filter_eq_nil_iff.mpr
      intro S _ hfe
      have hcat := ((feasibleSel_iff _ _ _ _).mp hfe).2 none hnan
      rw [catSum_none] at hcat
      have hm1 : (1 : ℤ) ≤ (m : ℤ) := by exact_mod_cast hm
      linarith
    rw [hfil, List.argmax_nil]
  unfold optimize_menuWith
  rw [hsol, extractSelected_none]
  simp [objectiveValue, hne]

/-- Witness for the amended C9 at the missing label table with minimum 1. -/
theorem C9_missing_label_witness :
    1 ≤ 1 ∧ none ∈ uniqueCats (filterRestaurant dfNan ridR1) ∧
    optimize_menuWith dfNan ridR1 7 1 = ([], none) :=
  ⟨le_refl 1, by decide, C9_missing_label dfNan ridR1 7 1 (le_refl 1) (by decide)⟩

/-- C10 counterexample: optimize_menu accepts no minimum count argument and
always behaves as the literal 1; on this table honoring a caller supplied
bound of 2 would change the result, so the bound is not configurable. -/
theorem C10_counterexample :
    optimize_menu dfC10 ridR1 10 = ([itemY], some 9) ∧
    optimize_menuWith dfC10 ridR1 10 2 = ([], none) :=
  ⟨by decide, by decide⟩

/-- C10 amended: the per category minimum of optimize_menu is the hard coded
literal 1 of line 22, not a caller parameter: the function coincides with the
parameterized model at bound 1, and every nonempty returned selection covers
each discovered category at least once. -/
theorem C10_hardcoded (df : List Row) (rid : String) (b : ℤ) (sel : List Row) (q : ℤ)
    (h : optimize_menu df rid b = (sel, some q)) (hne : sel ≠ []) :
    optimize_menu df rid b = optimize_menuWith df rid b 1 ∧
    ∀ c ∈ uniqueCats (filterRestaurant df rid),
      1 ≤ (sel.filter (fun r => r.MenuCategory == c)).length :=
  ⟨rfl, fun _ hc => selected_cat_count h hne hc⟩

/-- Witness for the amended C10 at the two item table with budget 10. -/
theorem C10_hardcoded_witness :
    optimize_menu dfC10 ridR1 10 = optimize_menuWith dfC10 ridR1 10 1 ∧
    ∀ c ∈ uniqueCats (filterRestaurant dfC10 ridR1),
      1 ≤ ([itemY].filter (fun r => r.MenuCategory == c)).length :=
  C10_hardcoded dfC10 ridR1 10 [itemY] 9 (by decide) (by decide)
